import Mathlib

/-!
Verification of the pivot query-binding and execution engine of
`msticpy/datamodel/pivot_data_queries.py`.

The Python source is shallowly embedded: Python dicts (keyword-argument
dicts) become insertion-ordered association lists, pandas DataFrames become
a `Frame` structure (column names, row index labels, per-row cell maps),
Python exceptions become an `Except PyErr` result, and the underlying query
function is an abstract `Kwargs → Except PyErr Frame`.
-/

set_option autoImplicit false

namespace PivotDQ

/-- Python runtime values that flow through the pivot engine: `None`,
strings, integers, lists and pandas DataFrames (a DataFrame is a column
list, an index-label list and one association list of cells per row). -/
inductive PyVal where
  | none
  | str (s : String)
  | int (n : Int)
  | list (xs : List PyVal)
  | df (cols : List String) (index : List Int) (cells : List (List (String × PyVal)))

instance : Inhabited PyVal := ⟨.none⟩

mutual

/-- Structural equality test for Python values. -/
def beqVal : PyVal → PyVal → Bool
  | .none, .none => true
  | .str a, .str b => a == b
  | .int a, .int b => a == b
  | .list xs, .list ys => beqValList xs ys
  | .df c i r, .df c' i' r' => c == c' && i == i' && beqRowList r r'
  | _, _ => false

/-- Structural equality test for lists of Python values. -/
def beqValList : List PyVal → List PyVal → Bool
  | [], [] => true
  | a :: as, b :: bs => beqVal a b && beqValList as bs
  | _, _ => false

/-- Structural equality test for one row of cells. -/
def beqRow : List (String × PyVal) → List (String × PyVal) → Bool
  | [], [] => true
  | (k, v) :: as, (k', v') :: bs => k == k' && beqVal v v' && beqRow as bs
  | _, _ => false

/-- Structural equality test for lists of rows. -/
def beqRowList : List (List (String × PyVal)) → List (List (String × PyVal)) → Bool
  | [], [] => true
  | a :: as, b :: bs => beqRow a b && beqRowList as bs
  | _, _ => false

end

mutual

theorem beqVal_iff : ∀ a b : PyVal, beqVal a b = true ↔ a = b
  | .none, .none => by simp [beqVal]
  | .none, .str _ | .none, .int _ | .none, .list _ | .none, .df _ _ _ => by simp [beqVal]
  | .str _, .none | .str _, .int _ | .str _, .list _ | .str _, .df _ _ _ => by simp [beqVal]
  | .int _, .none | .int _, .str _ | .int _, .list _ | .int _, .df _ _ _ => by simp [beqVal]
  | .list _, .none | .list _, .str _ | .list _, .int _ | .list _, .df _ _ _ => by
      simp [beqVal]
  | .df _ _ _, .none | .df _ _ _, .str _ | .df _ _ _, .int _ | .df _ _ _, .list _ => by
      simp [beqVal]
  | .str a, .str b => by simp [beqVal]
  | .int a, .int b => by simp [beqVal]
  | .list xs, .list ys => by simp [beqVal, beqValList_iff xs ys]
  | .df c i r, .df c' i' r' => by simp [beqVal, beqRowList_iff r r', and_assoc]

theorem beqValList_iff : ∀ as bs : List PyVal, beqValList as bs = true ↔ as = bs
  | [], [] => by simp [beqValList]
  | [], _ :: _ => by simp [beqValList]
  | _ :: _, [] => by simp [beqValList]
  | a :: as, b :: bs => by
      simp [beqValList, beqVal_iff a b, beqValList_iff as bs]

theorem beqRow_iff : ∀ as bs : List (String × PyVal), beqRow as bs = true ↔ as = bs
  | [], [] => by simp [beqRow]
  | [], _ :: _ => by simp [beqRow]
  | (_, _) :: _, [] => by simp [beqRow]
  | (k, v) :: as, (k', v') :: bs => by
      simp [beqRow, beqVal_iff v v', beqRow_iff as bs, and_assoc]

theorem beqRowList_iff :
    ∀ as bs : List (List (String × PyVal)), beqRowList as bs = true ↔ as = bs
  | [], [] => by simp [beqRowList]
  | [], _ :: _ => by simp [beqRowList]
  | _ :: _, [] => by simp [beqRowList]
  | a :: as, b :: bs => by
      simp [beqRowList, beqRow_iff a b, beqRowList_iff as bs]

end

instance : DecidableEq PyVal :=
  fun a b => decidable_of_iff _ (beqVal_iff a b)

/-- Python exceptions raised by the embedded code. -/
inductive PyErr where
  | typeError (msg : String)
  | valueError (msg : String)
  | keyError (key : String)
deriving DecidableEq

/-- Decidable equality of embedded results. -/
def exceptDecEq {E A : Type} [DecidableEq E] [DecidableEq A] :
    (a b : Except E A) → Decidable (a = b)
  | .error e, .error e' =>
      if h : e = e' then .isTrue (by rw [h])
      else .isFalse (by intro hh; cases hh; exact h rfl)
  | .error _, .ok _ => .isFalse (by intro hh; cases hh)
  | .ok _, .error _ => .isFalse (by intro hh; cases hh)
  | .ok a, .ok b =>
      if h : a = b then .isTrue (by rw [h])
      else .isFalse (by intro hh; cases hh; exact h rfl)

instance {E A : Type} [DecidableEq E] [DecidableEq A] :
    DecidableEq (Except E A) := exceptDecEq

/-- A pandas DataFrame: column names in order, row index labels, and the
cells of each row as an association list keyed by column name. -/
structure Frame where
  cols : List String
  index : List Int
  cells : List (List (String × PyVal))
deriving DecidableEq, Inhabited

/-- Embed a `Frame` as a Python value. -/
def Frame.toPy (f : Frame) : PyVal :=
  .df f.cols f.index f.cells

/-- Recover a `Frame` from a Python value (`isinstance(v, pd.DataFrame)`). -/
def PyVal.asFrame : PyVal → Option Frame
  | .df c i r => some ⟨c, i, r⟩
  | _ => Option.none

/-- Python truthiness (`if not x`). A DataFrame is mapped to `true`; in
pandas its truth value actually raises, but no join directive in the source
is ever a DataFrame. -/
def PyVal.truthy : PyVal → Bool
  | .none => false
  | .str s => !s.isEmpty
  | .int n => n != 0
  | .list xs => !xs.isEmpty
  | .df _ _ _ => true

/-- `isinstance(v, str)`. -/
def PyVal.isStr : PyVal → Bool
  | .str _ => true
  | _ => false

/-- `isinstance(v, abc.Iterable)`: strings, lists and DataFrames are
iterable in Python; `None` and integers are not. -/
def PyVal.isIterable : PyVal → Bool
  | .str _ => true
  | .list _ => true
  | .df _ _ _ => true
  | _ => false

/-- Python `list(v)` for the iterable values the source applies it to:
a list yields its elements, a DataFrame yields its column names (iterating
a DataFrame yields column labels).  Non-iterables are never reached. -/
def PyVal.elems : PyVal → List PyVal
  | .list xs => xs
  | .df c _ _ => c.map .str
  | .str s => s.toList.map (fun ch => .str (String.mk [ch]))
  | _ => []

/-- A Python keyword-argument dict: an insertion-ordered association list.
All dicts built by the source have pairwise-distinct keys. -/
abbrev Kwargs := List (String × PyVal)

/-- `d.get(k)` (`None`-free form: `Option`). -/
def dget (d : Kwargs) (k : String) : Option PyVal :=
  (d.find? (fun p => p.1 == k)).map (fun p => p.2)

/-- `k in d`. -/
def dcontains (d : Kwargs) (k : String) : Bool :=
  d.any (fun p => p.1 == k)

/-- Remove every binding of key `k` (on the source's distinct-key dicts
this is exactly `del d[k]` / the removal effect of `d.pop(k)`). -/
def dremove (d : Kwargs) (k : String) : Kwargs :=
  d.filter (fun p => p.1 != k)

/-- `d.pop(k, dflt)`: the popped value together with the shrunken dict. -/
def dpop (d : Kwargs) (k : String) (dflt : PyVal) : PyVal × Kwargs :=
  ((dget d k).getD dflt, dremove d k)

/-- `d[k] = v`: overwrite in place when the key exists, else append. -/
def dinsert (d : Kwargs) (k : String) (v : PyVal) : Kwargs :=
  if dcontains d k then d.map (fun p => if p.1 == k then (p.1, v) else p)
  else d ++ [(k, v)]

/-- Accumulate keyword bindings one by one, raising the Python duplicate
keyword-argument `TypeError` when a key repeats. -/
def addKwargs (acc : Kwargs) : Kwargs → Except PyErr Kwargs
  | [] => .ok acc
  | (k, v) :: rest =>
      if dcontains acc k then
        .error (.typeError ("got multiple values for keyword argument " ++ k))
      else addKwargs (acc ++ [(k, v)]) rest

/-- A Python call `f(**d1, **d2, ...)` builds a single keyword dict from
the unpacked dicts left to right; a key occurring in two of them raises
`TypeError: got multiple values for keyword argument`.  (Each individual
dict built by the source has distinct keys.) -/
def mergeKwargs (ds : List Kwargs) : Except PyErr Kwargs :=
  addKwargs [] (ds.foldr (fun d acc => d ++ acc) [])

/-- Call the underlying query function as `func(**d1, **d2, ...)`. -/
def callKw (func : Kwargs → Except PyErr Frame) (ds : List Kwargs) :
    Except PyErr Frame := do
  let merged ← mergeKwargs ds
  func merged

/-- Read one cell of a row (`row[col]`); rows built by the engine always
carry the columns that are read, missing keys surface as `None`/NaN. -/
def cellGet (row : List (String × PyVal)) (c : String) : PyVal :=
  ((row.find? (fun p => p.1 == c)).map (fun p => p.2)).getD .none

/-- `df[c] = v` for a scalar `v`: overwrite the column in place when it
exists, else append it as the last column. -/
def Frame.setCol (f : Frame) (c : String) (v : PyVal) : Frame :=
  { cols := if f.cols.contains c then f.cols else f.cols ++ [c]
    index := f.index
    cells := f.cells.map (fun r =>
      if r.any (fun p => p.1 == c) then
        r.map (fun p => if p.1 == c then (p.1, v) else p)
      else r ++ [(c, v)]) }

/-- `df.drop(columns=c, errors="ignore")`. -/
def Frame.dropColIgnore (f : Frame) (c : String) : Frame :=
  { cols := f.cols.filter (fun x => x != c)
    index := f.index
    cells := f.cells.map (fun r => r.filter (fun p => p.1 != c)) }

/-- `list(df[c].values)`: the column's cells in row order. -/
def Frame.colValues (f : Frame) (c : String) : List PyVal :=
  f.cells.map (fun r => cellGet r c)

/-- The frame produced by `pd.concat(fs, ignore_index=True)` on a
non-empty list: columns are unioned in order of first appearance, rows are
stacked in order, and the index is renumbered from 0. -/
def concatFrames (fs : List Frame) : Frame :=
  let cols := fs.foldl (fun acc f => acc ++ f.cols.filter (fun c => !acc.contains c)) []
  let cells := fs.foldr (fun f acc => f.cells ++ acc) []
  ⟨cols, (List.range cells.length).map Int.ofNat, cells⟩

/-- `pd.concat(fs, ignore_index=True)`: raises `ValueError` when given no
frames at all. -/
def concatIgnoreIndex (fs : List Frame) : Except PyErr Frame :=
  match fs with
  | [] => .error (.valueError "No objects to concatenate")
  | _ => .ok (concatFrames fs)

/-- Core of `DataFrame.merge`: both sides' rows are paired with their join
key; result rows are the concatenations of matching cell maps.  The
frames the engine merges have disjoint non-key columns, so no suffixing of
duplicate column labels is modelled. -/
def mergeCore (lrows rrows : List (PyVal × List (String × PyVal)))
    (how : String) : Except PyErr (List (List (String × PyVal))) :=
  let matchL := fun (l : PyVal × List (String × PyVal)) =>
    rrows.filter (fun r => r.1 == l.1)
  let matchR := fun (r : PyVal × List (String × PyVal)) =>
    lrows.filter (fun l => l.1 == r.1)
  if how = "inner" then
    .ok (lrows.flatMap (fun l => (matchL l).map (fun r => l.2 ++ r.2)))
  else if how = "left" then
    .ok (lrows.flatMap (fun l =>
      match matchL l with
      | [] => [l.2]
      | ms => ms.map (fun r => l.2 ++ r.2)))
  else if how = "right" then
    .ok (rrows.flatMap (fun r =>
      match matchR r with
      | [] => [r.2]
      | ms => ms.map (fun l => l.2 ++ r.2)))
  else if how = "outer" then
    .ok ((lrows.flatMap (fun l =>
      match matchL l with
      | [] => [l.2]
      | ms => ms.map (fun r => l.2 ++ r.2)))
      ++ (rrows.filter (fun r => matchR r = [])).map (fun r => r.2))
  else
    .error (.valueError ("not a valid merge type: " ++ how))

/-- Merged column list: left columns, then the right columns not already
present on the left. -/
def mergeCols (left right : Frame) : List String :=
  left.cols ++ right.cols.filter (fun c => !left.cols.contains c)

/-- `left.merge(right, left_on=lOn, right_on=rOn, how=how)` with single
string key columns (the only form the engine issues). -/
def Frame.mergeOn (left right : Frame) (lOn rOn how : PyVal) :
    Except PyErr Frame :=
  match lOn, rOn, how with
  | .str lc, .str rc, .str h => do
      let rows ← mergeCore
        (left.cells.map (fun r => (cellGet r lc, r)))
        (right.cells.map (fun r => (cellGet r rc, r))) h
      .ok ⟨mergeCols left right, (List.range rows.length).map Int.ofNat, rows⟩
  | _, _, _ => .error (.typeError "merge keys and join type must be strings")

/-- `left.merge(right, left_index=True, right_on="src_row_index",
how=how)`: the left key is the row's index label, the right key is the
`src_row_index` cell. -/
def Frame.mergeIndex (left right : Frame) (how : PyVal) : Except PyErr Frame :=
  match how with
  | .str h => do
      let rows ← mergeCore
        ((left.index.zip left.cells).map (fun p => (PyVal.int p.1, p.2)))
        (right.cells.map (fun r => (cellGet r "src_row_index", r))) h
      .ok ⟨mergeCols left right, (List.range rows.length).map Int.ofNat, rows⟩
  | _ => .error (.typeError "join type must be a string")

/-! ## Registry (`PivotQueryFunctions`) -/

/-- `ParamAttrs = namedtuple("ParamAttrs", "type, query, family, required")`. -/
structure ParamAttrs where
  type : String
  query : String
  family : String
  required : Bool
deriving DecidableEq

/-- One query descriptor as exposed by the provider's query store:
`required_params` (only its keys are used) and `params`, a mapping from
parameter name to its declared `"type"`. -/
structure QuerySource where
  required_params : List String
  params : List (String × String)
deriving DecidableEq

/-- `_DEF_IGNORE_PARAM = ("start", "end")` as the default ignore set. -/
def _DEF_IGNORE_PARAM : List String := ["start", "end"]

/-- `defaultdict(list)` append: `param_usage[param].append(attrs)`. -/
def addUsage (m : List (String × List ParamAttrs)) (k : String)
    (v : ParamAttrs) : List (String × List ParamAttrs) :=
  match m with
  | [] => [(k, [v])]
  | (k', vs) :: rest =>
      if k' = k then (k', vs ++ [v]) :: rest else (k', vs) :: addUsage rest k v

/-- The inner loop of `PivotQueryFunctions.__init__` over one query's
`params` items, appending a `ParamAttrs` record per declared parameter. -/
def addQueryUsage (family qname : String) (reqd : List String) :
    List (String × String) → List (String × List ParamAttrs) →
    List (String × List ParamAttrs)
  | [], m => m
  | (p, ty) :: rest, m =>
      addQueryUsage family qname reqd rest
        (addUsage m p ⟨ty, qname, family, decide (p ∈ reqd)⟩)

/-- The loop of `__init__` over one data family's queries. -/
def addFamilyUsage (family : String) (ignore : List String) :
    List (String × QuerySource) → List (String × List ParamAttrs) →
    List (String × List ParamAttrs)
  | [], m => m
  | (qname, q) :: rest, m =>
      addFamilyUsage family ignore rest
        (addQueryUsage family qname
          (q.required_params.filter (fun p => p ∉ ignore)) q.params m)

/-- `PivotQueryFunctions.__init__`: build `param_usage` from the
provider's `query_store.data_families`. -/
def buildParamUsage (ignore : List String) :
    List (String × List (String × QuerySource)) → List (String × List ParamAttrs) → List (String × List ParamAttrs)
  | [], m => m
  | (family, fam) :: rest, m =>
      buildParamUsage ignore rest (addFamilyUsage family ignore fam m)

/-- Every parameter name declared by some query of some family. -/
def allDeclaredParams (families : List (String × List (String × QuerySource))) :
    List String :=
  families.flatMap (fun fam => fam.2.flatMap (fun q => q.2.params.map (fun p => p.1)))

/-- `param_usage.get(param)`. -/
def usageGet (m : List (String × List ParamAttrs)) (p : String) :
    Option (List ParamAttrs) :=
  (m.find? (fun e => e.1 = p)).map (fun e => e.2)

/-- `PivotQueryFunctions.get_queries_for_param`: empty when the parameter
is unknown or unused, otherwise `(query, family, provider attribute name)`
per use.  The provider callable fetched with `getattr` is represented by
the attribute name `family ++ "." ++ query` it is fetched under. -/
def get_queries_for_param (m : List (String × List ParamAttrs)) (p : String) :
    List (String × String × String) :=
  match usageGet m p with
  | Option.none => []
  | some us =>
      if us.isEmpty then []
      else us.map (fun a => (a.query, a.family, a.family ++ "." ++ a.query))

/-- `PivotQueryFunctions.get_param_attrs`:
`self.param_usage.get(param_name, [])`. -/
def get_param_attrs (m : List (String × List ParamAttrs)) (p : String) :
    List ParamAttrs :=
  (usageGet m p).getD []

/-! ## Execution engine -/

/-- The map of function parameter names to their attributes
(`func_params : Dict[str, ParamAttrs]`). -/
abbrev FuncParams := List (String × ParamAttrs)

/-- `func_params[kw]` lookup. -/
def fpGet (fp : FuncParams) (k : String) : Option ParamAttrs :=
  (fp.find? (fun p => p.1 == k)).map (fun p => p.2)

/-- `kw in func_params`. -/
def fpContains (fp : FuncParams) (k : String) : Bool :=
  fp.any (fun p => p.1 == k)

/-- The underlying query function: takes the final keyword dict, returns a
DataFrame or raises. -/
abbrev QueryFn := Kwargs → Except PyErr Frame

/-- `arg in src_df.columns`: membership of a value in a pandas Index.
Unhashable values (lists, DataFrames) raise `TypeError`. -/
def pyInCols (arg : PyVal) (cols : List String) : Except PyErr Bool :=
  match arg with
  | .str s => .ok (cols.contains s)
  | .none => .ok false
  | .int _ => .ok false
  | .list _ => .error (.typeError "unhashable type: list")
  | .df _ _ _ => .error (.typeError "unhashable type: DataFrame")

/-- Loop body state of `_check_var_params_require_iter`: walk the caller's
kwargs, popping each non-time key from `func_kwargs`, classifying string /
non-iterable values as simple and iterable values as iteration parameters
(also copied into the simple dict when the declared type is `"list"`). -/
def checkVarLoop (fp : FuncParams) :
    List (String × PyVal) → Kwargs → Kwargs → List (String × List PyVal) →
    Except PyErr (List (String × List PyVal) × Kwargs × Kwargs)
  | [], fk, simple, varIter => .ok (varIter, simple, fk)
  | (kw, arg) :: rest, fk, simple, varIter =>
      if kw ∈ _DEF_IGNORE_PARAM then checkVarLoop fp rest fk simple varIter
      else
        -- func_kwargs.pop(kw_name): KeyError when absent
        if !dcontains fk kw then .error (.keyError kw)
        else
          let fk' := dremove fk kw
          if arg.isStr || !arg.isIterable then
            checkVarLoop fp rest fk' (dinsert simple kw arg) varIter
          else
            match fpGet fp kw with
            | Option.none => .error (.keyError kw)
            | some attrs =>
                let simple' :=
                  if attrs.type = "list" then dinsert simple kw (.list arg.elems)
                  else simple
                checkVarLoop fp rest fk' simple' (varIter ++ [(kw, arg.elems)])

/-- `_check_var_params_require_iter(func_params, func_kwargs, **kwargs)`:
returns `(var_iter_params, simple_params)` plus `func_kwargs` after its
pops. -/
def _check_var_params_require_iter (fp : FuncParams) (func_kwargs : Kwargs)
    (kwargs : Kwargs) :
    Except PyErr (List (String × List PyVal) × Kwargs × Kwargs) :=
  checkVarLoop fp kwargs func_kwargs [] []

/-- `min` of the value-list lengths; `zip(*lists)` stops at the shortest
input, and `zip()` of nothing is empty. -/
def minLen (ls : List (List PyVal)) : Nat :=
  match ls with
  | [] => 0
  | l :: rest => rest.foldl (fun m x => min m x.length) l.length

/-- Python `zip(*lists)`: positional tuples, truncated at the shortest
list. -/
def zipRows (ls : List (List PyVal)) : List (List PyVal) :=
  (List.range (minLen ls)).map (fun i => ls.map (fun l => l.getD i .none))

/-- The per-tuple loop of `_exec_query_for_values`: each call receives the
remaining simple parameters, this tuple's per-parameter values, and the
residual `func_kwargs`. -/
def runValueRows (func : QueryFn) (simple fk : Kwargs) (keys : List String) :
    List (List PyVal) → Except PyErr (List Frame)
  | [] => .ok []
  | r :: rest => do
      let res ← callKw func [simple, keys.zip r, fk]
      let more ← runValueRows func simple fk keys rest
      .ok (res :: more)

/-- `_exec_query_for_values(func, func_kwargs, func_params, kwargs)`. -/
def _exec_query_for_values (func : QueryFn) (func_kwargs : Kwargs)
    (func_params : FuncParams) (parent_kwargs : Kwargs) :
    Except PyErr Frame := do
  let (var_iter_params, simple_params, fk) ←
    _check_var_params_require_iter func_params func_kwargs parent_kwargs
  -- `if not var_iter_params or list(var_iter_params.keys()) ==
  --  list(simple_params.keys())`
  if var_iter_params.isEmpty
      || var_iter_params.map (fun p => p.1) = simple_params.map (fun p => p.1) then
    callKw func [simple_params, fk]
  else
    -- for param in var_iter_params: simple_params.pop(param, None)
    let simple := simple_params.filter
      (fun p => !(var_iter_params.any (fun q => q.1 == p.1)))
    let results ← runValueRows func simple fk
      (var_iter_params.map (fun p => p.1))
      (zipRows (var_iter_params.map (fun p => p.2)))
    concatIgnoreIndex results

/-- The composite guard of `_check_df_params_require_iter`'s loop:
`arg not in src_df.columns or not isinstance(func_kwargs.get(kw_name), str)
or kw_name not in func_params` skips the key (`None` here); otherwise the
column name held in `func_kwargs` and the parameter's attributes are
used. -/
def colRef : Bool → Option PyVal → Option ParamAttrs →
    Option (String × ParamAttrs)
  | true, some (.str col), some attrs => some (col, attrs)
  | _, _, _ => Option.none

/-- Loop body of `_check_df_params_require_iter`: walk the caller's
kwargs; a non-time key whose value names a source column, is a string in
`func_kwargs`, and is a declared parameter becomes a column-bound
iteration parameter (and, when declared `"list"`-typed, also a bulk list
parameter holding the whole column). -/
def checkDfLoop (fp : FuncParams) (src_df : Frame) :
    List (String × PyVal) → Kwargs → Kwargs → List (String × String) →
    Except PyErr (List (String × String) × Kwargs × Kwargs)
  | [], fk, listP, dfIter => .ok (dfIter, listP, fk)
  | (kw, arg) :: rest, fk, listP, dfIter =>
      if kw ∈ _DEF_IGNORE_PARAM then checkDfLoop fp src_df rest fk listP dfIter
      else do
        let isCol ← pyInCols arg src_df.cols
        match colRef isCol (dget fk kw) (fpGet fp kw) with
        | Option.none => checkDfLoop fp src_df rest fk listP dfIter
        | some (col, attrs) =>
            -- col_name = func_kwargs.pop(kw_name)
            let fk' := dremove fk kw
            if attrs.type = "list" then
              -- list(src_df[col].values): KeyError when the column is
              -- missing (it is present here: membership was checked)
              if !src_df.cols.contains col then .error (.keyError col)
              else
                checkDfLoop fp src_df rest fk'
                  (dinsert listP kw (.list (src_df.colValues col)))
                  (dfIter ++ [(kw, col)])
            else checkDfLoop fp src_df rest fk' listP (dfIter ++ [(kw, col)])

/-- `_check_df_params_require_iter(func_params, src_df, func_kwargs,
**kwargs)`: `(df_iter_params, list_params)` plus `func_kwargs` after its
pops. -/
def _check_df_params_require_iter (fp : FuncParams) (src_df : Frame)
    (func_kwargs : Kwargs) (kwargs : Kwargs) :
    Except PyErr (List (String × String) × Kwargs × Kwargs) :=
  checkDfLoop fp src_df kwargs func_kwargs [] []

/-- The per-row loop of `_exec_query_for_df`: each source row yields one
call on the iteration columns' row values, and the result is tagged with a
`src_row_index` column holding the source row's index label. -/
def runDfRows (func : QueryFn) (fk : Kwargs) (dfIter : List (String × String)) :
    List (Int × List (String × PyVal)) → Except PyErr (List Frame)
  | [] => .ok []
  | (ri, row) :: rest => do
      let colParamDict : Kwargs := dfIter.map (fun p => (p.1, cellGet row p.2))
      let res ← callKw func [colParamDict, fk]
      let more ← runDfRows func fk dfIter rest
      .ok (Frame.setCol res "src_row_index" (.int ri) :: more)

/-- `_exec_query_for_df(func, func_kwargs, func_params, parent_kwargs)`.
`src_df = func_kwargs.pop("data")` raises `KeyError` when absent and the
value must be a DataFrame (its DataFrame attributes are used at once). -/
def _exec_query_for_df (func : QueryFn) (func_kwargs : Kwargs)
    (func_params : FuncParams) (parent_kwargs : Kwargs) :
    Except PyErr Frame := do
  match dget func_kwargs "data" with
  | Option.none => .error (.keyError "data")
  | some v =>
    match v.asFrame with
    | Option.none => .error (.typeError "data argument must be a DataFrame")
    | some src_df =>
      if !dcontains parent_kwargs "data" then .error (.keyError "data")
      else do
        let fk := dremove func_kwargs "data"
        let parent := dremove parent_kwargs "data"
        let (df_iter_params, list_params, fk') ←
          _check_df_params_require_iter func_params src_df fk parent
        -- `if not df_iter_params or list(df_iter_params.keys()) ==
        --  list(list_params.keys())`
        if df_iter_params.isEmpty
            || df_iter_params.map (fun p => p.1) = list_params.map (fun p => p.1) then
          callKw func [list_params, fk']
        else do
          let results ← runDfRows func fk' df_iter_params
            (src_df.index.zip src_df.cells)
          concatIgnoreIndex results

/-- Warning issued when `left_on` is given without `right_on`. -/
def warnNeedRightOn : String :=
  "If you are specifying explicit join keys you must specify right_on"

/-- Warning issued when no left join column could be inferred. -/
def warnNoLeftOn : String :=
  "Could not infer left join column from source data"

/-- Warning issued when an index merge is impossible on the result set. -/
def warnNoIndexMerge : String :=
  "Cannot do an index merge on this result set"

/-- Python `list - set`: a `list` object does not support subtraction, so
the source line `col_keys = list(list(func_kwargs.keys()) - {...})` in
`_get_join_params` raises `TypeError` whenever it is evaluated. -/
def pyListSubSet (_xs : List String) (_s : List String) :
    Except PyErr (List String) :=
  .error (.typeError "unsupported operand type(s) for -: list and set")

/-- `_get_join_params(func_kwargs)`: pops `join`, `left_on`, `right_on`
and returns them with the shrunken kwargs and any warnings emitted. -/
def _get_join_params (func_kwargs : Kwargs) :
    Except PyErr ((PyVal × PyVal × PyVal) × Kwargs × List String) := do
  let (join_type, fk1) := dpop func_kwargs "join" .none
  if !join_type.truthy then .ok ((.none, .none, .none), fk1, [])
  else do
    let (left_on0, fk2) := dpop fk1 "left_on" .none
    let (right_on, fk3) := dpop fk2 "right_on" .none
    let warns1 := if left_on0.truthy && !right_on.truthy then [warnNeedRightOn] else []
    let left_on ←
      if !left_on0.truthy then do
        let col_keys ← pyListSubSet (fk3.map (fun p => p.1)) ["start", "end", "data"]
        -- (everything below this subtraction is unreachable: it raises)
        if col_keys.length = 1 then
          .ok ((dget fk3 (col_keys.headD "")).getD .none)
        else .ok left_on0
      else .ok left_on0
    let warns2 :=
      if right_on.truthy && !left_on.truthy then warns1 ++ [warnNoLeftOn] else warns1
    .ok ((join_type, left_on, right_on), fk3, warns2)

/-- `call_data_query(**kwargs)` — the inner executor produced by
`_create_data_func_exec(func, func_params)`.  Returns the resulting frame
together with the warnings emitted on the way. -/
def call_data_query (func : QueryFn) (func_params : FuncParams)
    (kwargs : Kwargs) : Except PyErr (Frame × List String) := do
  let func_kwargs := kwargs  -- kwargs.copy()
  if dcontains kwargs "data" then do
    let ((join_type, left_on, right_on), fk1, warns) ← _get_join_params func_kwargs
    -- src_data = kwargs["data"] if join_type else None
    let src_data := if join_type.truthy then (dget kwargs "data").getD .none else .none
    let result_df ← _exec_query_for_df func fk1 func_params kwargs
    match join_type.truthy, src_data.asFrame with
    | true, some src =>
        if left_on.truthy && right_on.truthy then do
          let merged ← src.mergeOn result_df left_on right_on join_type
          .ok (merged.dropColIgnore "src_row_index", warns)
        else if result_df.cols.contains "src_row_index" then do
          let merged ← src.mergeIndex result_df join_type
          .ok (merged.dropColIgnore "src_row_index", warns)
        else
          .ok (result_df.dropColIgnore "src_row_index", warns ++ [warnNoIndexMerge])
    | _, _ => .ok (result_df.dropColIgnore "src_row_index", warns)
  else do
    let r ← _exec_query_for_values func func_kwargs func_params kwargs
    .ok (r, [])

/-! ## Outer wrapper (`wrapped_query_func`) -/

/-- An entity instance, reduced to its readable named attributes. -/
structure EntityVal where
  attrs : List (String × PyVal)
deriving DecidableEq

/-- `hasattr(e, a)`. -/
def hasattr (e : EntityVal) (a : String) : Bool :=
  e.attrs.any (fun p => p.1 == a)

/-- `getattr(e, a, None)`. -/
def getattrD (e : EntityVal) (a : String) : PyVal :=
  cellGet e.attrs a

/-- A positional argument of the wrapped function: an entity instance or
any other Python value (`isinstance(args[0], entities.Entity)` selects the
first form). -/
inductive PosArg where
  | entity (e : EntityVal)
  | val (v : PyVal)

/-- The entity-attribute parameter dict built by `wrapped_query_func`:
`{param: getattr(value, attrib, None) for param, attrib in
param_attrib_map.items() if hasattr(value, attrib)}`. -/
def entityParamDict (param_attrib_map : List (String × String))
    (value : EntityVal) : Kwargs :=
  param_attrib_map.filterMap (fun p =>
    if hasattr value p.2 then some (p.1, getattrD value p.2) else Option.none)

/-- `wrapped_query_func(*args, **kwargs)`: resolves `start`/`end` from the
kwargs or from the (lazily read) timespan accessor, extracts entity
attributes through the attribute map when the first positional argument is
an entity, and calls the inner executor.  `tsStart`/`tsEnd` stand for
`get_timespan().start` / `get_timespan().end` at call time. -/
def wrapped_query_func (func : QueryFn) (func_params : FuncParams)
    (param_attrib_map : List (String × String)) (tsStart tsEnd : PyVal)
    (args : List PosArg) (kwargs : Kwargs) :
    Except PyErr (Frame × List String) := do
  let (startV, k1) := dpop kwargs "start" tsStart
  let (endV, k2) := dpop k1 "end" tsEnd
  let time_params : Kwargs := [("start", startV), ("end", endV)]
  match args with
  | .entity value :: _ => do
      let param_dict := entityParamDict param_attrib_map value
      -- exec_query_func(**param_dict, **time_params, **kwargs)
      let merged ← mergeKwargs [param_dict, time_params, k2]
      call_data_query func func_params merged
  | _ => do
      -- exec_query_func(**time_params, **kwargs)
      let merged ← mergeKwargs [time_params, k2]
      call_data_query func func_params merged

/-! ## Fixtures used by the claim theorems -/

/-- A one-parameter function whose `host_name` parameter takes single
values only (declared type `"str"`). -/
def fpHostStr : FuncParams := [("host_name", ⟨"str", "q1", "Fam", true⟩)]

/-- A one-parameter function whose `host_name` parameter is list-capable
(declared type `"list"`). -/
def fpHostList : FuncParams := [("host_name", ⟨"list", "q1", "Fam", true⟩)]

/-- Two single-value parameters: both require per-call iteration when
given iterables. -/
def fpBothStr : FuncParams :=
  [("host_name", ⟨"str", "q1", "Fam", true⟩),
   ("account_name", ⟨"str", "q1", "Fam", false⟩)]

/-- A list-capable `host_name` next to a single-value `account_name`. -/
def fpMix : FuncParams :=
  [("host_name", ⟨"list", "q1", "Fam", true⟩),
   ("account_name", ⟨"str", "q1", "Fam", false⟩)]

/-- A frame with no columns and no rows. -/
def emptyFrame : Frame := ⟨[], [], []⟩

/-- A query function that ignores its arguments and succeeds. -/
def constFn : QueryFn := fun _ => .ok emptyFrame

/-- A query function that records the keyword arguments it was called
with inside its result frame, so that distinct call shapes yield distinct
results. -/
def recordFn : QueryFn := fun k =>
  .ok ⟨["calls"], [0], [[("calls", .list (k.map (fun p => .list [.str p.1, p.2])))]]⟩

/-- A two-row source table whose only column `host_name` holds `a` and
`b`. -/
def dfTwoRows (a b : PyVal) : Frame :=
  ⟨["host_name"], [0, 1], [[("host_name", a)], [("host_name", b)]]⟩

/-! ## Helper lemmas -/

theorem dropColIgnore_cols_not_mem (f : Frame) (c : String) :
    c ∉ (f.dropColIgnore c).cols := by
  simp [Frame.dropColIgnore, List.mem_filter]

theorem mem_keys_dremove (d : Kwargs) (kw k : String) :
    k ∈ (dremove d kw).map Prod.fst ↔ k ∈ d.map Prod.fst ∧ k ≠ kw := by
  simp only [dremove, List.mem_map, List.mem_filter, bne_iff_ne]
  constructor
  · rintro ⟨p, ⟨hp, hne⟩, hk⟩
    exact ⟨⟨p, hp, hk⟩, hk ▸ hne⟩
  · rintro ⟨⟨p, hp, hk⟩, hne⟩
    exact ⟨p, ⟨hp, hk ▸ hne⟩, hk⟩

theorem dinsert_keys (d : Kwargs) (k : String) (v : PyVal) :
    (dinsert d k v).map Prod.fst
      = if dcontains d k then d.map Prod.fst else d.map Prod.fst ++ [k] := by
  unfold dinsert
  split
  · simp only [List.map_map, if_true]
    have e : (Prod.fst ∘ fun p : String × PyVal =>
        if p.1 == k then (p.1, v) else p) = Prod.fst := by
      funext p
      simp only [Function.comp_apply]
      split <;> rfl
    simp_all
  · simp_all

/-- Key bookkeeping of the DataFrame-mode parameter classification: every
bulk (`list_params`) key is also a column-bound iteration key, and every
column-bound key has been popped from `func_kwargs`. -/
theorem checkDfLoop_keys (fp : FuncParams) (src : Frame) :
    ∀ (kws : List (String × PyVal)) (fk listP : Kwargs)
      (dfIter : List (String × String)) (d : List (String × String)) (l f' : Kwargs),
      checkDfLoop fp src kws fk listP dfIter = .ok (d, l, f') →
      (∀ k, k ∈ listP.map Prod.fst → k ∈ dfIter.map Prod.fst) →
      (∀ k, k ∈ dfIter.map Prod.fst → k ∉ fk.map Prod.fst) →
      (∀ k, k ∈ l.map Prod.fst → k ∈ d.map Prod.fst) ∧
      (∀ k, k ∈ d.map Prod.fst → k ∉ f'.map Prod.fst)
  | [], fk, listP, dfIter, d, l, f' => by
      intro h h1 h2
      simp [checkDfLoop] at h
      obtain ⟨hd, hl, hf⟩ := h
      subst hd; subst hl; subst hf
      exact ⟨h1, h2⟩
  | (kw, arg) :: rest, fk, listP, dfIter, d, l, f' => by
      intro h h1 h2
      by_cases hig : kw ∈ _DEF_IGNORE_PARAM
      · rw [show checkDfLoop fp src ((kw, arg) :: rest) fk listP dfIter
            = checkDfLoop fp src rest fk listP dfIter by
          simp [checkDfLoop, hig]] at h
        exact checkDfLoop_keys fp src rest fk listP dfIter d l f' h h1 h2
      · simp only [checkDfLoop, if_neg hig] at h
        rcases hic : pyInCols arg src.cols with e | b
        · rw [hic] at h
          simp [Except.instMonad, Except.bind] at h
        · rw [hic] at h
          simp only [Except.instMonad, Except.bind] at h
          split at h
          · exact checkDfLoop_keys fp src rest fk listP dfIter d l f' h h1 h2
          next _x col attrs _hca =>
            have hstep : ∀ k, k ∈ (dfIter ++ [(kw, col)]).map Prod.fst →
                k ∉ (dremove fk kw).map Prod.fst := by
              intro k hk
              simp only [List.map_append, List.map_cons, List.map_nil,
                List.mem_append, List.mem_singleton] at hk
              rw [mem_keys_dremove]
              rintro ⟨hkfk, hkne⟩
              rcases hk with hk' | rfl
              · exact h2 k hk' hkfk
              · exact hkne rfl
            split at h
            · split at h
              · exact absurd h (by simp)
              · have hsub : ∀ k,
                    k ∈ (dinsert listP kw (.list (src.colValues col))).map Prod.fst →
                    k ∈ (dfIter ++ [(kw, col)]).map Prod.fst := by
                  intro k hk
                  rw [dinsert_keys] at hk
                  simp only [List.map_append, List.map_cons, List.map_nil,
                    List.mem_append, List.mem_singleton]
                  by_cases hc : dcontains listP kw
                  · rw [if_pos hc] at hk
                    exact Or.inl (h1 k hk)
                  · rw [if_neg hc] at hk
                    rcases List.mem_append.mp hk with h' | h'
                    · exact Or.inl (h1 k h')
                    · exact Or.inr (List.mem_singleton.mp h')
                exact checkDfLoop_keys fp src rest (dremove fk kw)
                  (dinsert listP kw (.list (src.colValues col)))
                  (dfIter ++ [(kw, col)]) d l f' h hsub hstep
            · have hsub : ∀ k, k ∈ listP.map Prod.fst →
                  k ∈ (dfIter ++ [(kw, col)]).map Prod.fst := by
                intro k hk
                simp only [List.map_append, List.map_cons, List.map_nil,
                  List.mem_append, List.mem_singleton]
                exact Or.inl (h1 k hk)
              exact checkDfLoop_keys fp src rest (dremove fk kw) listP
                (dfIter ++ [(kw, col)]) d l f' h hsub hstep

theorem usageGet_addUsage_ne (k : String) (v : ParamAttrs) (p : String)
    (h : p ≠ k) :
    ∀ m : List (String × List ParamAttrs),
      usageGet (addUsage m k v) p = usageGet m p
  | [] => by
      have hkp : ¬ (k = p) := fun hh => h (id (Eq.symm hh))
      simp [addUsage, usageGet, hkp]
  | (k', vs) :: rest => by
      have hkp : ¬ (k = p) := fun hh => h (id (Eq.symm hh))
      by_cases he : k' = k
      · subst he
        simp [addUsage, usageGet, hkp]
      · by_cases hk' : k' = p
        · subst hk'
          simp [addUsage, usageGet, he]
        · simp only [addUsage, if_neg he, usageGet, List.find?]
          simp only [show (decide (k' = p)) = false by simp [hk']]
          exact usageGet_addUsage_ne k v p h rest

theorem usageGet_addQueryUsage (family qname : String) (reqd : List String) :
    ∀ (ps : List (String × String)) (m : List (String × List ParamAttrs))
      (p : String), p ∉ ps.map Prod.fst →
      usageGet (addQueryUsage family qname reqd ps m) p = usageGet m p
  | [], _, _, _ => rfl
  | (q, ty) :: rest, m, p, h => by
      have hpq : p ≠ q := by
        intro hh
        exact h (by simp [hh])
      have hrest : p ∉ rest.map Prod.fst := by
        intro hh
        exact h (by simp [hh])
      simp only [addQueryUsage]
      rw [usageGet_addQueryUsage family qname reqd rest _ p hrest,
        usageGet_addUsage_ne q _ p hpq m]

theorem usageGet_addFamilyUsage (family : String) (ignore : List String) :
    ∀ (qs : List (String × QuerySource)) (m : List (String × List ParamAttrs))
      (p : String), (∀ q ∈ qs, p ∉ q.2.params.map Prod.fst) →
      usageGet (addFamilyUsage family ignore qs m) p = usageGet m p
  | [], _, _, _ => rfl
  | (qn, q) :: rest, m, p, h => by
      simp only [addFamilyUsage]
      rw [usageGet_addFamilyUsage family ignore rest _ p
          (fun q' hq' => h q' (List.mem_cons_of_mem _ hq')),
        usageGet_addQueryUsage family qn _ q.params m p
          (h (qn, q) (List.mem_cons_self _ _))]

theorem usageGet_buildParamUsage (ignore : List String) :
    ∀ (fams : List (String × List (String × QuerySource)))
      (m : List (String × List ParamAttrs)) (p : String),
      p ∉ allDeclaredParams fams →
      usageGet (buildParamUsage ignore fams m) p = usageGet m p
  | [], _, _, _ => rfl
  | (fname, fam) :: rest, m, p, h => by
      have hfam : ∀ q ∈ fam, p ∉ q.2.params.map Prod.fst := by
        intro q hq hmem
        apply h
        simp only [allDeclaredParams, List.flatMap_cons, List.mem_append]
        exact Or.inl (by
          simp only [List.mem_flatMap]
          exact ⟨q, hq, hmem⟩)
      have hrest : p ∉ allDeclaredParams rest := by
        intro hmem
        apply h
        simp only [allDeclaredParams, List.flatMap_cons, List.mem_append]
        exact Or.inr hmem
      simp only [buildParamUsage]
      rw [usageGet_buildParamUsage ignore rest _ p hrest,
        usageGet_addFamilyUsage fname ignore fam m p hfam]

/-! ## Claim theorems -/

/-- Claim C1 (code bug).  The spec says a malformed join specification
(e.g. `join` given while `left_on` is missing, with or without `right_on`)
degrades to a warning and an index-join fallback and never raises.  The
code instead raises `TypeError` from the join handling itself: in
`_get_join_params`, `col_keys = list(list(func_kwargs.keys()) - \x7b...\x7d)`
subtracts a set from a `list`, which is unsupported, so every tabular call
that requests a join without a truthy `left_on` fails hard — for any query
function, any parameter metadata and any data value. -/
theorem join_without_left_on_raises_type_error (func : QueryFn)
    (fp : FuncParams) (df hn : PyVal) :
    call_data_query func fp
      [("data", df), ("host_name", hn), ("join", .str "left"),
       ("right_on", .str "SrcCol")]
      = .error (.typeError "unsupported operand type(s) for -: list and set") ∧
    call_data_query func fp
      [("data", df), ("host_name", hn), ("join", .str "left")]
      = .error (.typeError "unsupported operand type(s) for -: list and set") := by
  constructor <;> rfl

/-- Claim C2, counterexample.  The claim says that when every supplied
iterable parameter is list-capable the underlying function is called
exactly once with the bulk lists plus the remaining plain kwargs, even
when scalar parameters accompany the iterables.  With the list-capable
`host_name=["h1","h2"]` next to the scalar `account_name="a1"`, the result
differs from the claimed single-call result: the engine iterated. -/
theorem bulk_with_scalar_params_not_single_call :
    call_data_query recordFn fpMix
      [("start", .str "T0"), ("end", .str "T1"),
       ("host_name", .list [.str "h1", .str "h2"]), ("account_name", .str "a1")]
      ≠ Except.map (fun r => (r, ([] : List String)))
          (recordFn [("host_name", .list [.str "h1", .str "h2"]),
                     ("account_name", .str "a1"),
                     ("start", .str "T0"), ("end", .str "T1")]) := by
  decide

/-- Claim C2, amended.  The scalar/list bulk path requires the iterable
key list to equal the simple key list: when the only non-time parameter is
a list-capable iterable, one bulk call is made; but when a scalar
parameter is supplied alongside, the key lists differ and the engine makes
one call per iterated value, repeating the scalar parameter in each
call, instead of the claimed single call. -/
theorem values_bulk_path_key_list_equality (func : QueryFn) (ts te : PyVal)
    (rb r0 r1 : Frame)
    (hb : func [("host_name", .list [.str "h1", .str "h2"]), ("start", ts), ("end", te)]
      = .ok rb)
    (h0 : func [("account_name", .str "a1"), ("host_name", .str "h1"),
                ("start", ts), ("end", te)] = .ok r0)
    (h1 : func [("account_name", .str "a1"), ("host_name", .str "h2"),
                ("start", ts), ("end", te)] = .ok r1) :
    call_data_query func fpMix
      [("start", ts), ("end", te), ("host_name", .list [.str "h1", .str "h2"])]
      = .ok (rb, []) ∧
    call_data_query func fpMix
      [("start", ts), ("end", te), ("host_name", .list [.str "h1", .str "h2"]),
       ("account_name", .str "a1")]
      = .ok (concatFrames [r0, r1], []) := by
  constructor <;>
  simp [call_data_query, _exec_query_for_values, _check_var_params_require_iter,
    checkVarLoop, runValueRows, zipRows, minLen, callKw, mergeKwargs, addKwargs,
    concatIgnoreIndex, dcontains, dget, dremove, dpop, dinsert, fpGet,
    _DEF_IGNORE_PARAM, PyVal.isStr, PyVal.isIterable, PyVal.elems, fpMix,
    Except.instMonad, Except.bind, Except.map, Except.pure, hb, h0, h1]

/-- Witness for `values_bulk_path_key_list_equality` at the recording
query function. -/
theorem values_bulk_path_key_list_equality_witness :
    call_data_query recordFn fpMix
      [("start", .str "T0"), ("end", .str "T1"),
       ("host_name", .list [.str "h1", .str "h2"])]
      = .ok (⟨["calls"], [0],
          [[("calls", .list [.list [.str "host_name", .list [.str "h1", .str "h2"]],
              .list [.str "start", .str "T0"], .list [.str "end", .str "T1"]])]]⟩, []) ∧
    call_data_query recordFn fpMix
      [("start", .str "T0"), ("end", .str "T1"),
       ("host_name", .list [.str "h1", .str "h2"]), ("account_name", .str "a1")]
      = .ok (concatFrames
          [⟨["calls"], [0],
            [[("calls", .list [.list [.str "account_name", .str "a1"],
                .list [.str "host_name", .str "h1"],
                .list [.str "start", .str "T0"], .list [.str "end", .str "T1"]])]]⟩,
           ⟨["calls"], [0],
            [[("calls", .list [.list [.str "account_name", .str "a1"],
                .list [.str "host_name", .str "h2"],
                .list [.str "start", .str "T0"], .list [.str "end", .str "T1"]])]]⟩], []) :=
  values_bulk_path_key_list_equality recordFn (.str "T0") (.str "T1") _ _ _
    (by rfl) (by rfl) (by rfl)

/-- Claim C3, counterexample.  The claim says a wrapped call on an entity
with an explicit keyword for a mapped parameter whose attribute exists
succeeds with the explicit value taking effect.  At this concrete input
the call instead raises the duplicate-keyword `TypeError`. -/
theorem entity_override_duplicate_kwarg_cex :
    wrapped_query_func constFn fpHostStr [("host_name", "fqdn")]
      (.str "TS") (.str "TE") [.entity ⟨[("fqdn", .str "host1")]⟩]
      [("host_name", .str "explicit")]
      = .error (.typeError "got multiple values for keyword argument host_name") := by
  rfl

/-- Claim C3, amended.  When the first positional argument is an entity
whose attribute backs a mapped parameter, an explicit keyword argument for
that same parameter makes
`exec_query_func(**param_dict, **time_params, **kwargs)` raise the
duplicate-keyword `TypeError`: explicit overrides of entity-derived
parameters are not supported, for every attribute value, every override
value and every timespan. -/
theorem entity_explicit_override_raises (func : QueryFn) (fp : FuncParams)
    (v w ts te : PyVal) :
    wrapped_query_func func fp [("host_name", "fqdn")] ts te
      [.entity ⟨[("fqdn", v)]⟩] [("host_name", w)]
      = .error (.typeError "got multiple values for keyword argument host_name") := by
  rfl

/-- Claim C4.  Tabular mode with a two-row table bound to a parameter
that is NOT list-capable: the underlying function is called exactly twice,
once per row in source order, each per-row result is tagged with a
`src_row_index` column holding the source index 0 and 1 respectively, the
results are concatenated in row order, and the returned output has the
`src_row_index` column dropped. -/
theorem df_non_list_param_per_row_calls (func : QueryFn) (a b ts te : PyVal)
    (r0 r1 : Frame)
    (h0 : func [("host_name", a), ("start", ts), ("end", te)] = .ok r0)
    (h1 : func [("host_name", b), ("start", ts), ("end", te)] = .ok r1) :
    call_data_query func fpHostStr
      [("data", (dfTwoRows a b).toPy), ("host_name", .str "host_name"),
       ("start", ts), ("end", te)]
      = .ok ((concatFrames
          [r0.setCol "src_row_index" (.int 0),
           r1.setCol "src_row_index" (.int 1)]).dropColIgnore "src_row_index", []) ∧
    ∀ g ws, call_data_query func fpHostStr
      [("data", (dfTwoRows a b).toPy), ("host_name", .str "host_name"),
       ("start", ts), ("end", te)] = .ok (g, ws) → "src_row_index" ∉ g.cols := by
  have he : call_data_query func fpHostStr
      [("data", (dfTwoRows a b).toPy), ("host_name", .str "host_name"),
       ("start", ts), ("end", te)]
      = .ok ((concatFrames
          [r0.setCol "src_row_index" (.int 0),
           r1.setCol "src_row_index" (.int 1)]).dropColIgnore "src_row_index", []) := by
    simp [call_data_query, _get_join_params, _exec_query_for_df,
      _check_df_params_require_iter, checkDfLoop, colRef, runDfRows, callKw,
      mergeKwargs, addKwargs, concatIgnoreIndex, dcontains, dget, dremove, dpop,
      dinsert, pyInCols, fpGet, fpContains, _DEF_IGNORE_PARAM, PyVal.truthy,
      PyVal.asFrame, Frame.toPy, dfTwoRows, fpHostStr, cellGet, Frame.colValues,
      Except.instMonad, Except.bind, Except.map, Except.pure, h0, h1]
  refine ⟨he, ?_⟩
  intro g ws hg
  rw [he] at hg
  obtain ⟨h1, -⟩ := Prod.mk.inj (Except.ok.inj hg)
  rw [← h1]
  exact dropColIgnore_cols_not_mem _ _

/-- Witness for `df_non_list_param_per_row_calls` at the constant query
function. -/
theorem df_non_list_param_per_row_calls_witness :
    call_data_query constFn fpHostStr
      [("data", (dfTwoRows (.str "h1") (.str "h2")).toPy),
       ("host_name", .str "host_name"), ("start", .str "T0"), ("end", .str "T1")]
      = .ok ((concatFrames
          [emptyFrame.setCol "src_row_index" (.int 0),
           emptyFrame.setCol "src_row_index" (.int 1)]).dropColIgnore "src_row_index", []) ∧
    ∀ g ws, call_data_query constFn fpHostStr
      [("data", (dfTwoRows (.str "h1") (.str "h2")).toPy),
       ("host_name", .str "host_name"), ("start", .str "T0"), ("end", .str "T1")]
      = .ok (g, ws) → "src_row_index" ∉ g.cols :=
  df_non_list_param_per_row_calls constFn (.str "h1") (.str "h2")
    (.str "T0") (.str "T1") emptyFrame emptyFrame (by rfl) (by rfl)

/-- Claim C5.  Tabular mode with column `host_name=["h1","h2"]` bound to a
list-capable `host_name` parameter: the underlying function is called
exactly once, receiving the full column as the list `["h1","h2"]` (plus
the passthrough time parameters). -/
theorem df_list_param_single_bulk_call (func : QueryFn) (ts te : PyVal)
    (r : Frame)
    (h : func [("host_name", .list [.str "h1", .str "h2"]), ("start", ts), ("end", te)]
      = .ok r) :
    call_data_query func fpHostList
      [("data", (dfTwoRows (.str "h1") (.str "h2")).toPy),
       ("host_name", .str "host_name"), ("start", ts), ("end", te)]
      = .ok (r.dropColIgnore "src_row_index", []) := by
  simp [call_data_query, _get_join_params, _exec_query_for_df,
    _check_df_params_require_iter, checkDfLoop, colRef, runDfRows, callKw,
    mergeKwargs, addKwargs, concatIgnoreIndex, dcontains, dget, dremove, dpop,
    dinsert, pyInCols, fpGet, fpContains, _DEF_IGNORE_PARAM, PyVal.truthy,
    PyVal.asFrame, Frame.toPy, dfTwoRows, fpHostList, cellGet, Frame.colValues,
    Except.instMonad, Except.bind, Except.map, Except.pure, h]

/-- Witness for `df_list_param_single_bulk_call` at the constant query
function. -/
theorem df_list_param_single_bulk_call_witness :
    call_data_query constFn fpHostList
      [("data", (dfTwoRows (.str "h1") (.str "h2")).toPy),
       ("host_name", .str "host_name"), ("start", .str "T0"), ("end", .str "T1")]
      = .ok (emptyFrame.dropColIgnore "src_row_index", []) :=
  df_list_param_single_bulk_call constFn (.str "T0") (.str "T1") emptyFrame (by rfl)

/-- Claim C6.  Scalar/list per-call iteration zips the iterable parameter
value sequences positionally and stops at the shortest: with
`host_name=["h1","h2","h3"]` and `account_name=["a1","a2"]`, both
requiring iteration, exactly two calls occur, pairing (h1,a1) then
(h2,a2); h3 is never used. -/
theorem values_zip_truncation (func : QueryFn) (ts te : PyVal) (r0 r1 : Frame)
    (h0 : func [("host_name", .str "h1"), ("account_name", .str "a1"),
                ("start", ts), ("end", te)] = .ok r0)
    (h1 : func [("host_name", .str "h2"), ("account_name", .str "a2"),
                ("start", ts), ("end", te)] = .ok r1) :
    call_data_query func fpBothStr
      [("start", ts), ("end", te),
       ("host_name", .list [.str "h1", .str "h2", .str "h3"]),
       ("account_name", .list [.str "a1", .str "a2"])]
      = .ok (concatFrames [r0, r1], []) := by
  simp [call_data_query, _exec_query_for_values, _check_var_params_require_iter,
    checkVarLoop, runValueRows, zipRows, minLen, callKw, mergeKwargs, addKwargs,
    concatIgnoreIndex, dcontains, dget, dremove, dpop, dinsert, fpGet,
    _DEF_IGNORE_PARAM, PyVal.isStr, PyVal.isIterable, PyVal.elems, fpBothStr,
    Except.instMonad, Except.bind, Except.map, Except.pure, h0, h1]

/-- Witness for `values_zip_truncation` at the constant query function. -/
theorem values_zip_truncation_witness :
    call_data_query constFn fpBothStr
      [("start", .str "T0"), ("end", .str "T1"),
       ("host_name", .list [.str "h1", .str "h2", .str "h3"]),
       ("account_name", .list [.str "a1", .str "a2"])]
      = .ok (concatFrames [emptyFrame, emptyFrame], []) :=
  values_zip_truncation constFn (.str "T0") (.str "T1") emptyFrame emptyFrame
    (by rfl) (by rfl)

/-- Claim C7.  Tabular-mode invariant: when some column-bound parameter is
not covered by a bulk list parameter (it requires per-row handling), the
whole execution is the per-row loop — every call is built from the
column-bound parameters' row values plus the residual kwargs — and every
bulk-capable parameter is itself column-bound (so it too is supplied
per-row) while its key is absent from the residual kwargs, so the
pre-built bulk lists are passed to no call. -/
theorem df_iteration_excludes_bulk_params (func : QueryFn) (fp : FuncParams)
    (src : Frame) (fk0 pk0 : Kwargs) (d : List (String × String)) (l f' : Kwargs)
    (hd : dget fk0 "data" = some src.toPy)
    (hp : dcontains pk0 "data" = true)
    (hc : _check_df_params_require_iter fp src (dremove fk0 "data") (dremove pk0 "data")
      = .ok (d, l, f'))
    (hk : ∃ k, k ∈ d.map Prod.fst ∧ k ∉ l.map Prod.fst) :
    _exec_query_for_df func fk0 fp pk0
      = Except.bind (runDfRows func f' d (src.index.zip src.cells)) concatIgnoreIndex ∧
    (∀ k, k ∈ l.map Prod.fst → k ∈ d.map Prod.fst ∧ k ∉ f'.map Prod.fst) := by
  obtain ⟨k0, hk0d, hk0l⟩ := hk
  have hne1 : ¬ (d = []) := by rintro rfl; simp at hk0d
  have hne2 : ¬ (d.map Prod.fst = l.map Prod.fst) := by
    intro he
    rw [he] at hk0d
    exact hk0l hk0d
  have hkeys := checkDfLoop_keys fp src (dremove pk0 "data") (dremove fk0 "data")
    [] [] d l f' hc (by simp) (by simp)
  refine ⟨?_, fun k hkl => ⟨hkeys.1 k hkl, hkeys.2 k (hkeys.1 k hkl)⟩⟩
  simp only [_exec_query_for_df, hd, PyVal.asFrame, Frame.toPy, hp, Bool.not_true,
    Bool.false_eq_true, if_false, Except.instMonad, Except.bind]
  rw [show _check_df_params_require_iter fp src (dremove fk0 "data") (dremove pk0 "data")
      = _check_df_params_require_iter fp ⟨src.cols, src.index, src.cells⟩
          (dremove fk0 "data") (dremove pk0 "data") from rfl] at hc
  rw [hc]
  simp [hne1, hne2, List.isEmpty_iff]

/-- Witness for `df_iteration_excludes_bulk_params`: a one-row table with
a list-capable `host_name` column parameter next to a single-value
`account_name` column parameter. -/
theorem df_iteration_excludes_bulk_params_witness :
    _exec_query_for_df constFn
      [("data", (Frame.mk ["host_name", "account_name"] [0]
          [[("host_name", .str "h1"), ("account_name", .str "a1")]]).toPy),
       ("host_name", .str "host_name"), ("account_name", .str "account_name")]
      fpMix
      [("data", (Frame.mk ["host_name", "account_name"] [0]
          [[("host_name", .str "h1"), ("account_name", .str "a1")]]).toPy),
       ("host_name", .str "host_name"), ("account_name", .str "account_name")]
      = Except.bind (runDfRows constFn []
          [("host_name", "host_name"), ("account_name", "account_name")]
          ((Frame.mk ["host_name", "account_name"] [0]
            [[("host_name", .str "h1"), ("account_name", .str "a1")]]).index.zip
           (Frame.mk ["host_name", "account_name"] [0]
            [[("host_name", .str "h1"), ("account_name", .str "a1")]]).cells))
          concatIgnoreIndex ∧
    (∀ k, k ∈ ([("host_name", PyVal.list [.str "h1"])] : Kwargs).map Prod.fst →
      k ∈ ([("host_name", "host_name"), ("account_name", "account_name")] :
            List (String × String)).map Prod.fst ∧
      k ∉ ([] : Kwargs).map Prod.fst) :=
  df_iteration_excludes_bulk_params constFn fpMix
    (Frame.mk ["host_name", "account_name"] [0]
      [[("host_name", .str "h1"), ("account_name", .str "a1")]])
    [("data", (Frame.mk ["host_name", "account_name"] [0]
        [[("host_name", .str "h1"), ("account_name", .str "a1")]]).toPy),
     ("host_name", .str "host_name"), ("account_name", .str "account_name")]
    [("data", (Frame.mk ["host_name", "account_name"] [0]
        [[("host_name", .str "h1"), ("account_name", .str "a1")]]).toPy),
     ("host_name", .str "host_name"), ("account_name", .str "account_name")]
    [("host_name", "host_name"), ("account_name", "account_name")]
    [("host_name", PyVal.list [.str "h1"])] []
    (by rfl) (by rfl) (by rfl)
    ⟨"account_name", by decide, by decide⟩

/-- Claim C8.  A wrapped call with an entity first argument and no
explicit argument for the mapped parameters: the parameter whose attribute
exists on the entity (`host_name ← fqdn`) reaches the underlying call with
the attribute's current value, while the parameter whose attribute is
missing (`account_name ← Name`) is silently omitted — the underlying call
receives exactly the extracted parameter plus the time parameters, and no
`account_name` key is present. -/
theorem entity_attr_extraction_passthrough (func : QueryFn) (fp : FuncParams)
    (s : String) (ts te : PyVal) (r : Frame)
    (h : func [("host_name", .str s), ("start", ts), ("end", te)] = .ok r) :
    wrapped_query_func func fp [("host_name", "fqdn"), ("account_name", "Name")]
      ts te [.entity ⟨[("fqdn", .str s)]⟩] []
      = .ok (r, []) ∧
    dget [("host_name", PyVal.str s), ("start", ts), ("end", te)] "account_name"
      = Option.none := by
  refine ⟨?_, rfl⟩
  have e : wrapped_query_func func fp [("host_name", "fqdn"), ("account_name", "Name")]
      ts te [.entity ⟨[("fqdn", .str s)]⟩] []
      = Except.bind (func [("host_name", .str s), ("start", ts), ("end", te)])
          (fun r => .ok (r, [])) := rfl
  rw [e, h]
  rfl

/-- Witness for `entity_attr_extraction_passthrough` on an entity with
`fqdn = "host1"`. -/
theorem entity_attr_extraction_passthrough_witness :
    wrapped_query_func constFn fpHostStr
      [("host_name", "fqdn"), ("account_name", "Name")]
      (.str "TS") (.str "TE") [.entity ⟨[("fqdn", .str "host1")]⟩] []
      = .ok (emptyFrame, []) ∧
    dget [("host_name", PyVal.str "host1"), ("start", .str "TS"), ("end", .str "TE")]
      "account_name" = Option.none :=
  entity_attr_extraction_passthrough constFn fpHostStr "host1"
    (.str "TS") (.str "TE") emptyFrame (by rfl)

/-- Claim C9.  For a parameter name declared by no query of the provider,
both lookups are total and empty: `get_queries_for_param` returns the
empty list and `get_param_attrs` returns the empty list. -/
theorem unknown_param_lookups_empty
    (fams : List (String × List (String × QuerySource)))
    (ignore : List String) (p : String) (h : p ∉ allDeclaredParams fams) :
    get_queries_for_param (buildParamUsage ignore fams []) p = [] ∧
    get_param_attrs (buildParamUsage ignore fams []) p = [] := by
  have hu : usageGet (buildParamUsage ignore fams []) p = Option.none :=
    usageGet_buildParamUsage ignore fams [] p h
  constructor
  · simp [get_queries_for_param, hu]
  · simp [get_param_attrs, hu]

/-- Witness for `unknown_param_lookups_empty` on a one-query provider. -/
theorem unknown_param_lookups_empty_witness :
    get_queries_for_param
      (buildParamUsage _DEF_IGNORE_PARAM
        [("Fam", [("q1", ⟨["host_name", "start"],
          [("host_name", "str"), ("start", "datetime")]⟩)])] [])
      "no_such_param" = [] ∧
    get_param_attrs
      (buildParamUsage _DEF_IGNORE_PARAM
        [("Fam", [("q1", ⟨["host_name", "start"],
          [("host_name", "str"), ("start", "datetime")]⟩)])] [])
      "no_such_param" = [] :=
  unknown_param_lookups_empty
    [("Fam", [("q1", ⟨["host_name", "start"],
      [("host_name", "str"), ("start", "datetime")]⟩)])]
    _DEF_IGNORE_PARAM "no_such_param" (by decide)

/-- Claim C10.  When the per-call iteration path produces zero underlying
calls — a non-list-capable parameter given an empty iterable in
scalar/list mode, or a zero-row source table in tabular per-row mode — the
wrapped execution raises the `pd.concat`-of-nothing `ValueError` instead
of returning an empty result table, for every query function and time
bounds. -/
theorem empty_iteration_concat_raises (func : QueryFn) (ts te : PyVal) :
    call_data_query func fpHostStr
      [("start", ts), ("end", te), ("host_name", .list [])]
      = .error (.valueError "No objects to concatenate") ∧
    call_data_query func fpHostStr
      [("data", (Frame.mk ["host_name"] [] []).toPy), ("host_name", .str "host_name"),
       ("start", ts), ("end", te)]
      = .error (.valueError "No objects to concatenate") := by
  constructor <;> rfl

end PivotDQ
